import Mathlib

/-!
# Verification of the PCB editor core (pads / traces / persistence / interaction)

Shallow embedding of the scene-engine core of the repository:

* `src/src/primitives/Pads.js`       (`createPads`)
* `src/src/primitives/Traces.js`     (`createTrace`, in `src/unnamed` as part of Edges.js blob)
* `src/unnamed/part_004`             (`Engine`: `addPads`, `addTraces`, `addComponent`,
                                      `setBoard`, `dispose`)
* `src/src/persistence/hydrate.js`   (`loadBoard`)
* `src/unnamed/part_001`             (`serializeBoard`)
* `src/unnamed/part_003`             (`InteractionManager`: `_onClick`, `_updateSelection`,
                                      `_onTransformDrag`)
* `src/src/engine/Board.js`          (`createBoard` dimension handling)

Numbers are modelled as rationals (`ℚ`); the JavaScript values `0.8`, `0.81`,
`0.5`, `1.6`, `0.4` appear as `4/5`, `81/100`, `1/2`, `8/5`, `2/5`.
JavaScript `undefined` / absent object fields are modelled with `Option`;
the JS truthiness of numbers (`0` is falsy) and of strings (`""` is falsy)
is modelled explicitly by `truthyQ` / `jsOrNum` / `jsOrStr`.
-/

/-! ### Fractional constants of the source

`Rat` literals written with `/` do not reduce inside the kernel (the gcd
normalization blocks `decide`), so the five fractional constants of the source
are given as explicit normalized fractions; the `_eq` lemmas identify them with
the usual literals. -/

/-- The pad surface offset `0.8`. -/
def c08 : ℚ := ⟨4, 5, by norm_num, by norm_num⟩

/-- The trace surface offset `0.81`. -/
def c081 : ℚ := ⟨81, 100, by norm_num, by norm_num⟩

/-- The default trace width `0.5`. -/
def c05 : ℚ := ⟨1, 2, by norm_num, by norm_num⟩

/-- The default board thickness `1.6`. -/
def c16 : ℚ := ⟨8, 5, by norm_num, by norm_num⟩

/-- The default via radius (and via height margin) `0.4`. -/
def c04 : ℚ := ⟨2, 5, by norm_num, by norm_num⟩

/-- The drill value `0.3` used in concrete test documents. -/
def c03 : ℚ := ⟨3, 10, by norm_num, by norm_num⟩

theorem c08_eq : c08 = 4/5 := by rw [c08, Rat.mk'_eq_divInt]; norm_num [Rat.divInt_eq_div]

theorem c081_eq : c081 = 81/100 := by rw [c081, Rat.mk'_eq_divInt]; norm_num [Rat.divInt_eq_div]

theorem c05_eq : c05 = 1/2 := by rw [c05, Rat.mk'_eq_divInt]; norm_num [Rat.divInt_eq_div]

theorem c16_eq : c16 = 8/5 := by rw [c16, Rat.mk'_eq_divInt]; norm_num [Rat.divInt_eq_div]

theorem c04_eq : c04 = 2/5 := by rw [c04, Rat.mk'_eq_divInt]; norm_num [Rat.divInt_eq_div]

theorem c03_eq : c03 = 3/10 := by rw [c03, Rat.mk'_eq_divInt]; norm_num [Rat.divInt_eq_div]

/-- A 3-component vector (the `[x, y, z]` arrays and `THREE.Vector3` values). -/
structure Vec3 where
  x : ℚ
  y : ℚ
  z : ℚ
deriving DecidableEq, Repr

/-- JS truthiness for an optional number: `undefined` and `0` are falsy. -/
def truthyQ (o : Option ℚ) : Option ℚ :=
  o.bind fun q => if q = 0 then none else some q

/-- JS `a || b || d` on numbers (`0` and `undefined` fall through). -/
def jsOrNum (a b : Option ℚ) (d : ℚ) : ℚ :=
  ((truthyQ a).orElse fun _ => truthyQ b).getD d

/-- JS `s || d` on strings (`undefined` and `""` fall through). -/
def jsOrStr (a : Option String) (d : String) : String :=
  match a with
  | some s => if s = "" then d else s
  | none => d

/-- JS `s || undefined` on strings. -/
def jsStrOrUndef (a : Option String) : Option String :=
  a.bind fun s => if s = "" then none else some s

/-! ## Instanced pad batch (`src/src/primitives/Pads.js`, `createPads`) -/

/-- One element of the `padArray` handed to `Engine.addPads` / `createPads`
(documented shape `{ id?, position: [x,y,z], size: [w,h] }`; `size` is kept as a
raw JS array because hydration may hand over arrays of any length). -/
structure PadEntry where
  id : Option String := none
  position : Vec3
  size : List ℚ
deriving DecidableEq, Repr

/-- The metadata record `idMap[i] = { id, size, position, instanceId }` kept on the
instanced mesh.  `size` is stored componentwise (`size[0]`, `size[1]`); `none`
models the JS `undefined` obtained when the entry's size array is too short. -/
structure PadMeta where
  id : String
  sizeW : Option ℚ
  sizeH : Option ℚ
  position : Vec3
  instanceId : ℕ
deriving DecidableEq, Repr

/-- The per-instance transform written by `setMatrixAt`: the dummy's matrix is
`translate(position) · rotX(-π/2) · scale(w, h, 1)`.  The constant flat rotation
and the unit z-scale are common to every instance and are left implicit; the
varying data (position and xy-scale) is recorded. `none` models an `undefined`
(NaN) scale component. -/
structure InstanceTransform where
  pos : Vec3
  scaleW : Option ℚ
  scaleH : Option ℚ
deriving DecidableEq, Repr

/-- The instanced pad batch built by `createPads`: instance count, per-instance
transforms, and the index → metadata map (represented positionally: the entry
for instance `i` sits at list index `i`).  The mirrored outline (edges) mesh
carries the same transforms plus a fixed nudge and no metadata; it is not
modelled. -/
structure PadBatch where
  count : ℕ
  transforms : List InstanceTransform
  idMap : List PadMeta
deriving DecidableEq, Repr

/-- Model of `createPads(data)` (`Pads.js` lines 14–105).  For an empty input the source
returns a bare `THREE.Group()` containing no instanced mesh and no `idMap`;
this is modelled as `none`.  Otherwise each entry `i` gets its transform at
instance index `i` and a metadata record under key `i`, with
`id: pad.id ?? `pad_i`` (JS `??`: only `undefined`/`null` falls through). -/
def createPads (data : List PadEntry) : Option PadBatch :=
  if data = [] then none
  else some
    { count := data.length
      transforms := data.map fun e =>
        { pos := e.position, scaleW := e.size.get? 0, scaleH := e.size.get? 1 }
      idMap := data.enum.map fun ie =>
        { id := ie.2.id.getD ("pad_" ++ toString ie.1)
          sizeW := ie.2.size.get? 0
          sizeH := ie.2.size.get? 1
          position := ie.2.position
          instanceId := ie.1 } }

/-! ## Traces (`createTrace`, `Engine.addTraces`) -/

/-- Squared Euclidean distance; the source computes `p1.distanceTo(p2)` and
compares it with `0`, and `√q = 0 ↔ q = 0`. -/
def distSq (a b : Vec3) : ℚ :=
  (a.x - b.x) ^ 2 + (a.y - b.y) ^ 2 + (a.z - b.z) ^ 2

/-- The standalone trace drawable made by `createTrace`: `userData.start/end/width`
hold the creation-time values, `position` is the (mutable) mesh position,
initially the midpoint.  `userData.id` is never written by `createTrace`. -/
structure TraceMesh where
  start : Vec3
  endv : Vec3
  width : ℚ
  position : Vec3
  id : Option String := none
deriving DecidableEq, Repr

/-- Model of `createTrace(start, end, width)` (`Traces.js` lines 22–75): returns `null`
for a zero-length segment, otherwise a mesh positioned at the midpoint with the
creation data stored in `userData`. -/
def createTrace (s e : Vec3) (w : ℚ) : Option TraceMesh :=
  if distSq s e = 0 then none
  else some
    { start := s, endv := e, width := w
      position := ⟨(s.x + e.x) / 2, (s.y + e.y) / 2, (s.z + e.z) / 2⟩
      id := none }

/-- One element of the `traceArray` handed to `Engine.addTraces`
(`{ start, end, width }`). -/
structure SegEntry where
  start : Vec3
  endv : Vec3
  width : ℚ
deriving DecidableEq, Repr

/-! ## Board dimensions (`Board.js` `createBoard`, hydrate board branch) -/

/-- The three dimensions kept in `board.userData.boardConfig`.  `none` models a
field whose value ended up `undefined` (the geometry is then built with NaN
extents). -/
structure BoardDims where
  width : Option ℚ
  height : Option ℚ
  thickness : Option ℚ
deriving DecidableEq, Repr

/-- A config field as received by `createBoard`: `none` = key absent from the
config object, `some none` = key present with value `undefined`, `some (some q)`
= key present with a number.  The distinction matters because a JS object
spread copies present-but-`undefined` keys over the defaults. -/
abbrev JSField := Option (Option ℚ)

/-- One field of `{ ...DEFAULT_BOARD_CONFIG, ...config }` (`Board.js` line 17):
an absent key leaves the default, a present key overrides it even when its
value is `undefined`. -/
def spreadField (dflt : ℚ) (v : JSField) : Option ℚ :=
  match v with
  | none => some dflt
  | some v => v

/-- The dimension part of `createBoard(config)` with defaults 100 × 80 × 1.6. -/
def createBoardDims (w h t : JSField) : BoardDims :=
  { width := spreadField 100 w, height := spreadField 80 h, thickness := spreadField c16 t }

/-! ## JSON document model (`hydrate.js` input / `serializeBoard` output)

The normalizer is duck-typed: every array element is probed for the same set
of keys.  A single record `JEntry` therefore models any element of the
`pads` / `traces` / `components` / `holes` / `vias` arrays, with `none` for an
absent key. -/

/-- A position value as probed by `toVec3`: an array of length 3, an array of
length 2, or any other (truthy) value. -/
inductive JPos where
  | arr3 (x y z : ℚ)
  | arr2 (x z : ℚ)
  | bad
deriving DecidableEq, Repr

/-- Model of `toVec3(p, defaultY)` (`hydrate.js` lines 15–21); the argument may be
`undefined` (`none`). -/
def toVec3 (p : Option JPos) (dy : ℚ) : Vec3 :=
  match p with
  | some (.arr3 x y z) => ⟨x, y, z⟩
  | some (.arr2 x z) => ⟨x, dy, z⟩
  | _ => ⟨0, dy, 0⟩

/-- A `size` value: an array of numbers, or a truthy non-array value
(e.g. a `{w,h}` object), which `Array.isArray` rejects. -/
inductive JSizeVal where
  | arr (l : List ℚ)
  | nonArr
deriving DecidableEq, Repr

/-- One element of a document array.  `end` and `rotation` are reserved-ish
names; they appear as `endv` and `rot`. -/
structure JEntry where
  type : Option String := none
  id : Option String := none
  pos : Option JPos := none
  position : Option JPos := none
  size : Option JSizeVal := none
  w : Option ℚ := none
  h : Option ℚ := none
  width : Option ℚ := none
  height : Option ℚ := none
  thickness : Option ℚ := none
  points : Option (List JPos) := none
  path : Option (List JPos) := none
  start : Option JPos := none
  endv : Option JPos := none
  radius : Option ℚ := none
  drill : Option ℚ := none
  rot : Option (List ℚ) := none
deriving DecidableEq, Repr

/-- The nested `board.dimensions` object. -/
structure JDims where
  width : Option ℚ := none
  height : Option ℚ := none
  thickness : Option ℚ := none
deriving DecidableEq, Repr

/-- The `board` object: flat fields and/or a nested `dimensions` object. -/
structure JBoard where
  width : Option ℚ := none
  height : Option ℚ := none
  thickness : Option ℚ := none
  dims : Option JDims := none
deriving DecidableEq, Repr

/-- A parsed persisted-state document. `none` on an array field models an
absent key (or any non-array value, which `Array.isArray` rejects). -/
structure JDoc where
  board : Option JBoard := none
  pads : Option (List JEntry) := none
  traces : Option (List JEntry) := none
  components : Option (List JEntry) := none
  holes : Option (List JEntry) := none
  vias : Option (List JEntry) := none
deriving DecidableEq, Repr

/-! ## Hydration (`hydrate.js` `loadBoard`) -/

/-- The board-config guard and field resolution (`hydrate.js` lines 24–42):
when `dimensions` exists and `dimensions.width || dimensions.height` is truthy,
a fresh config object is built whose three keys are always present, each valued
`dims.f ?? flat.f ?? undefined` (JS `??`); otherwise `data.board` itself is
passed, whose keys are present exactly when the flat fields are. -/
def boardConfigOf (b : JBoard) : JSField × JSField × JSField :=
  match b.dims with
  | some d =>
      if (truthyQ d.width).isSome || (truthyQ d.height).isSome then
        (some ((d.width).orElse fun _ => b.width),
         some ((d.height).orElse fun _ => b.height),
         some ((d.thickness).orElse fun _ => b.thickness))
      else (b.width.map some, b.height.map some, b.thickness.map some)
  | none => (b.width.map some, b.height.map some, b.thickness.map some)

/-- Dimensions of the board built by `engine.setBoard(boardConfig)` for a given
`data.board` object (`hydrate.js` lines 24–45 feeding `Board.js` line 17). -/
def hydrateBoardDims (b : JBoard) : BoardDims :=
  let cfg := boardConfigOf b
  createBoardDims cfg.1 cfg.2.1 cfg.2.2

/-- Pad source list: `data.pads` plus the `components` entries tagged `"pad"`
(`hydrate.js` lines 71–77). -/
def padsSourceOf (d : JDoc) : List JEntry :=
  d.pads.getD [] ++ (d.components.getD []).filter fun c => c.type = some ("pad")

/-- The `size` resolution for one pad entry (`hydrate.js` lines 84–86):
`p.size || [p.w || p.width || 1, p.h || p.height || 1]`, then non-arrays are
replaced by `[1, 1]`. -/
def padSizeOf (p : JEntry) : List ℚ :=
  match p.size with
  | some (.arr l) => l
  | some .nonArr => [1, 1]
  | none => [jsOrNum p.w p.width 1, jsOrNum p.h p.height 1]

/-- The `padArray` built by `loadBoard` (`hydrate.js` lines 80–94): position via
`toVec3(p.pos || p.position, 0.8)`, id via `p.id || `pad_index``. -/
def hydratePadArray (src : List JEntry) : List PadEntry :=
  src.enum.map fun ip =>
    { id := some (jsOrStr ip.2.id ("pad_" ++ toString ip.1))
      position := toVec3 ((ip.2.pos).orElse fun _ => ip.2.position) c08
      size := padSizeOf ip.2 }

/-- A processed trace segment (`{ start, end, width }`) pushed by the trace
explosion loop. -/
structure Segment where
  start : Vec3
  endv : Vec3
  width : ℚ
deriving DecidableEq, Repr

/-- The polyline explosion loop body (`hydrate.js` lines 115–124 / 128–137):
`for i in [0, len-2]` push `{ toVec3(pts[i], 0.81), toVec3(pts[i+1], 0.81), w }`. -/
def segsFromPolyline (ps : List JPos) (w : ℚ) : List Segment :=
  (List.range (ps.length - 1)).map fun i =>
    { start := toVec3 (ps.get? i) c081
      endv := toVec3 (ps.get? (i+1)) c081
      width := w }

/-- The `start`/`end` fallback branch (`hydrate.js` lines 140–149). -/
def startEndSegs (t : JEntry) (w : ℚ) : List Segment :=
  match t.start, t.endv with
  | some s, some e => [{ start := toVec3 (some s) c081, endv := toVec3 (some e) c081, width := w }]
  | _, _ => []

/-- Segments contributed by one trace entry (`hydrate.js` lines 110–150):
width is `t.width || t.thickness || 0.5`; then `points` polyline (length ≥ 2),
else `path` polyline (length ≥ 2), else a single `start`/`end` segment,
else nothing. -/
def traceSegments (t : JEntry) : List Segment :=
  let w := jsOrNum t.width t.thickness c05
  match t.points with
  | some ps =>
      if 2 ≤ ps.length then segsFromPolyline ps w
      else match t.path with
        | some qs => if 2 ≤ qs.length then segsFromPolyline qs w else startEndSegs t w
        | none => startEndSegs t w
  | none =>
      match t.path with
      | some qs => if 2 ≤ qs.length then segsFromPolyline qs w else startEndSegs t w
      | none => startEndSegs t w

/-- Trace source list: `data.traces` plus `components` entries tagged `"trace"`
(`hydrate.js` lines 100–106). -/
def tracesSourceOf (d : JDoc) : List JEntry :=
  d.traces.getD [] ++ (d.components.getD []).filter fun c => c.type = some ("trace")

/-- All `processedSegments` of a document. -/
def processTraces (ts : List JEntry) : List Segment :=
  ts.flatMap traceSegments

/-! ## Components (`Engine.addComponent`, hydrate component branch) -/

/-- Geometry of a standalone component drawable: a via cylinder
(`CylinderGeometry(r, r, boardThickness + 0.4)`) or a generic box
(`BoxGeometry(size[0], size[2] || 1, size[1])`). `none` models an `undefined`
(NaN) box extent. -/
inductive CompGeom where
  | cylinder (radius : ℚ) (height : ℚ)
  | box (w : Option ℚ) (t : ℚ) (h : Option ℚ)
deriving DecidableEq, Repr

/-- A standalone component drawable with its `userData`. -/
structure ComponentEntity where
  ctype : String
  id : Option String := none
  position : Vec3
  size : List ℚ
  geom : CompGeom
deriving DecidableEq, Repr

/-- The argument record built for `engine.addComponent`
(`hydrate.js` lines 182–190). -/
structure CompConfig where
  type : String
  id : Option String := none
  position : Vec3
  size : List ℚ
  radius : Option ℚ := none
deriving DecidableEq, Repr

/-! ## Engine state (`src/unnamed/part_004`) -/

/-- The engine collections the claims are about: the board config, the pad
batch (`padsGroup`), the standalone traces and the standalone components. -/
structure EngineState where
  board : Option BoardDims := none
  pads : Option PadBatch := none
  traces : List TraceMesh := []
  comps : List ComponentEntity := []
deriving DecidableEq, Repr

/-- Model of `Engine.setBoard(config)` (part_004 lines 171–192): the previous board is
disposed and replaced wholesale (camera framing is presentational). -/
def setBoard (s : EngineState) (w h t : JSField) : EngineState :=
  { s with board := some (createBoardDims w h t) }

/-- Model of `Engine.addPads(padArray)` (part_004 lines 81–91): dispose the previous
`padsGroup`, then install `createPads(padArray)`. -/
def addPads (s : EngineState) (padArray : List PadEntry) : EngineState :=
  { s with pads := createPads padArray }

/-- Model of `Engine.addTraces(traceArray)` (part_004 lines 97–114): dispose all previous
traces, then add one drawable per entry, skipping those for which `createTrace`
returned `null`. -/
def addTraces (s : EngineState) (traceArray : List SegEntry) : EngineState :=
  { s with traces := traceArray.filterMap fun t => createTrace t.start t.endv t.width }

/-- Model of `Engine.addComponent(component)` (part_004 lines 120–165): a via-typed
entry gets a cylinder with radius `radius || (size[0] || 0.4)` and height
`boardThickness + 0.4` (thickness `1.6` when the board or its thickness is
missing); anything else gets a `BoxGeometry(size[0], size[2] || 1, size[1])`.
The mesh is appended to `engine.components`. -/
def addComponent (s : EngineState) (c : CompConfig) : EngineState :=
  let mesh :=
    if c.type = "via" then
      let bt := (s.board.bind fun b => b.thickness).getD c16
      let r := jsOrNum c.radius (c.size.get? 0) c04
      { ctype := if c.type = "" then ("component") else c.type
        id := c.id, position := c.position, size := c.size
        geom := CompGeom.cylinder r (bt + c04) : ComponentEntity }
    else
      { ctype := if c.type = "" then ("component") else c.type
        id := c.id, position := c.position, size := c.size
        geom := CompGeom.box (c.size.get? 0) (jsOrNum (c.size.get? 2) none 1) (c.size.get? 1) }
  { s with comps := s.comps ++ [mesh] }

/-- Component source list (`hydrate.js` lines 157–168): all of
`data.components`, then `data.holes` as-is, then `data.vias` re-tagged
`{ ...v, type: v.type || "via" }`. -/
def componentsSourceOf (d : JDoc) : List JEntry :=
  d.components.getD [] ++ d.holes.getD []
    ++ (d.vias.getD []).map fun v => { v with type := some (jsOrStr v.type ("via")) }

/-- The per-entry component normalization (`hydrate.js` lines 170–191):
`rawType = c.type || "component"`, `hole` aliased to `via`, position via
`toVec3(c.pos || c.position, 0.8)`, size array or `[4,2,2]`, radius
`c.radius || c.drill`. -/
def compConfigOf (c : JEntry) : CompConfig :=
  let rawType := jsOrStr c.type ("component")
  { type := if rawType = "hole" then ("via") else rawType
    id := c.id
    position := toVec3 ((c.pos).orElse fun _ => c.position) c08
    size := match c.size with | some (.arr l) => l | _ => [4, 2, 2]
    radius := (truthyQ c.radius).orElse fun _ => truthyQ c.drill }

/-- Model of `loadBoard(engine, data)` (`hydrate.js` lines 8–192), after JSON parsing:
board replacement, wholesale clearing of pads/traces/components, then the
three rebuild passes.  `addPads` / `addTraces` run only when their source is
non-empty, exactly as in the source. -/
def loadBoard (s : EngineState) (d : JDoc) : EngineState :=
  let s1 := match d.board with
    | some b => let cfg := boardConfigOf b
                setBoard s cfg.1 cfg.2.1 cfg.2.2
    | none => s
  let s2 := { s1 with pads := none, traces := [], comps := [] }
  let psrc := padsSourceOf d
  let s3 := if psrc = [] then s2 else addPads s2 (hydratePadArray psrc)
  let segs := processTraces (tracesSourceOf d)
  let s4 := if segs = [] then s3
            else addTraces s3 (segs.map fun g => { start := g.start, endv := g.endv, width := g.width })
  (componentsSourceOf d).foldl (fun st c => addComponent st (compConfigOf c)) s4

/-! ## Serialization (`src/unnamed/part_001`, `serializeBoard`) -/

/-- The 2-element size array `[w, h]` stored in a pad's metadata, as emitted by
`serializeBoard`.  Degenerate metadata (an `undefined` component, which JSON
would render as `null`) is emitted as an empty array; the round-trip theorem
assumes well-formed pads, under which this branch is never taken. -/
def serPadSize (m : PadMeta) : List ℚ :=
  match m.sizeW, m.sizeH with
  | some w, some h => [w, h]
  | _, _ => []

/-- The `{ type: "pad", id, position, size }` component emitted for one
metadata entry (part_001 lines 93–102). -/
def serPad (m : PadMeta) : JEntry :=
  { type := some ("pad"), id := some m.id
    position := some (.arr3 m.position.x m.position.y m.position.z)
    size := some (.arr (serPadSize m)) }

/-- The `{ type: "trace", id?, start, end, width }` component emitted for one
trace drawable (part_001 lines 107–121); `id: userData.id || undefined`.
The `userData.start/end/width` fields are always set by `createTrace`, so the
skip-guard (`!start || !end || width == null`) never fires in the model. -/
def serTrace (t : TraceMesh) : JEntry :=
  { type := some ("trace"), id := jsStrOrUndef t.id
    start := some (.arr3 t.start.x t.start.y t.start.z)
    endv := some (.arr3 t.endv.x t.endv.y t.endv.z)
    width := some t.width }

/-- The serialized board object: the current `boardConfig` (whose fields may be
`undefined`), or the literal default `{ 100, 80, 1.6 }` when no board exists. -/
def serBoard (s : EngineState) : JBoard :=
  match s.board with
  | some b => { width := b.width, height := b.height, thickness := b.thickness, dims := none }
  | none => { width := some 100, height := some 80, thickness := some c16, dims := none }

/-- The pad metadata list of a state: the batch's `idMap`, or nothing when no
pad batch exists (`serializeBoard`'s guard on `engine.padsGroup`). -/
def padMetas (s : EngineState) : List PadMeta :=
  match s.pads with
  | some b => b.idMap
  | none => []

/-- Model of `serializeBoard(engine)` (part_001 lines 75–124): a board object plus one
flat `components` list holding every pad metadata entry and every trace. -/
def serializeBoard (s : EngineState) : JDoc :=
  { board := some (serBoard s)
    components := some ((padMetas s).map serPad ++ s.traces.map serTrace) }

/-- One serialize-then-hydrate round trip. -/
def roundtrip (s : EngineState) : EngineState :=
  loadBoard s (serializeBoard s)

/-- Pad observations of a state: the `(position, size)` pairs of the pad batch
metadata, in instance order. -/
def padsPosSizes (s : EngineState) : List (Vec3 × Option ℚ × Option ℚ) :=
  (padMetas s).map fun m => (m.position, m.sizeW, m.sizeH)

/-- Trace observations of a state: the `(start, end, width)` triples of the
trace drawables, in creation order. -/
def tracesTriples (s : EngineState) : List (Vec3 × Vec3 × ℚ) :=
  s.traces.map fun t => (t.start, t.endv, t.width)

/-! ## Interaction manager (`src/unnamed/part_003`) -/

/-- A snapshot handed to the selection listener (`onSelectionChange`). -/
structure SelectionData where
  id : String
  stype : String
  position : Vec3
  sizeW : Option ℚ := none
  sizeH : Option ℚ := none
  width : Option ℚ := none
  area : Option ℚ := none
  instanceId : ℤ
deriving DecidableEq, Repr

/-- Model of `this.selectedObject`: the instanced pads mesh, a trace drawable, or a
standalone component drawable. -/
inductive SelObj where
  | padsMesh
  | traceM (t : TraceMesh)
  | compM (c : ComponentEntity)
deriving DecidableEq, Repr

/-- The `transformControls.userData` triple `{ dummy, instanceMesh, instanceId }`,
set (together) only by the pad branch of `_updateSelection` and never cleared.
`instanceId` comes from a raycast hit, hence is `≥ 0` whenever set. -/
structure PadBinding where
  dummyPos : Vec3
  instanceId : ℕ
deriving DecidableEq, Repr

/-- What `transformControls` is attached to (`transformControls.object`). -/
inductive Attached where
  | padDummy
  | traceObj
  | compObj
deriving DecidableEq, Repr

/-- The interaction-relevant state: hover / selection sentinels, the selected
object, the transform-controls attachment and its (sticky) pad binding, and the
pad batch of the engine scene the manager manipulates. -/
structure IMState where
  hoveredInstanceId : ℤ := -1
  selectedInstanceId : ℤ := -1
  selectedObject : Option SelObj := none
  attached : Option Attached := none
  padBinding : Option PadBinding := none
  pads : Option PadBatch := none
deriving DecidableEq, Repr

/-- The deselect branch of `_updateSelection` (part_003 lines 104–115): reset
the selection sentinel, drop the selected object, detach the transform
controls, notify the listener once with `null`.  The hover sentinel and the
`userData` pad binding are not touched. -/
def updateSelectionNone (s : IMState) : IMState × List (Option SelectionData) :=
  ({ s with selectedInstanceId := -1, selectedObject := none, attached := none }, [none])

/-- The empty-space branch of `_onClick` (part_003 lines 249–252): no raycast
hit means `_updateSelection(null)`. -/
def onClickNoHit (s : IMState) : IMState × List (Option SelectionData) :=
  updateSelectionNone s

/-- A raycast intersection record, reduced to the fields `_onClick` reads:
the hit object's `userData.type` and, for instanced meshes, the instance id. -/
structure Hit where
  otype : String
  iid : Option ℕ := none
deriving DecidableEq, Repr

/-- The standalone-component predicate of the second `hits.find` in `_onClick`
(part_003 lines 239–246). -/
def isStandaloneType (t : String) : Bool :=
  t = "ic" || t = "component" || t = "connector" || t = "capacitor" || t = "via"

/-- The `bestHit` resolution of `_onClick` (part_003 lines 234–247): the first
`pads_copper` hit, else the first standalone-component hit, else `hits[0]`. -/
def bestHit (hits : List Hit) : Option Hit :=
  ((hits.find? fun h => h.otype = "pads_copper").orElse fun _ =>
    (hits.find? fun h => isStandaloneType h.otype).orElse fun _ => hits.head?)

/-- Modelled from the spec (for comparison only): the resolution priority as
the spec sentence states it — "pad batch hit > standalone component hit
(ic/connector/capacitor/via) > first remaining hit"; the spec tier omits the
`component` type. -/
def isSpecStandaloneType (t : String) : Bool :=
  t = "ic" || t = "connector" || t = "capacitor" || t = "via"

/-- Modelled from the spec (for comparison only): hit resolution with the
spec's tier predicate. -/
def specBestHit (hits : List Hit) : Option Hit :=
  ((hits.find? fun h => h.otype = "pads_copper").orElse fun _ =>
    (hits.find? fun h => isSpecStandaloneType h.otype).orElse fun _ => hits.head?)

/-! ### Drag updates (`_onTransformDrag`, part_003 lines 266–325) -/

/-- Write the dummy's (clamped) position into the instance buffer at the held
index and mirror it into the metadata map — the `setMatrixAt` /
`idMap[instanceId].position = ...` pair of the pad branch.  The dummy's scale
components were decomposed from the same instance's matrix at selection time,
so only the position part of the written matrix changes. -/
def writeInstancePos (b : PadBatch) (i : ℕ) (p : Vec3) : PadBatch :=
  { b with
    transforms := b.transforms.enum.map fun jt =>
      if jt.1 = i then { jt.2 with pos := p } else jt.2
    idMap := b.idMap.enum.map fun jm =>
      if jm.1 = i then { jm.2 with position := p } else jm.2 }

/-- The listener snapshot of the pad branch (part_003 lines 297–305). -/
def padDragData (pd : PadMeta) (p : Vec3) (i : ℕ) : SelectionData :=
  { id := pd.id, stype := "pad", position := p
    sizeW := pd.sizeW, sizeH := pd.sizeH
    area := match pd.sizeW, pd.sizeH with
            | some a, some b => some (a * b)
            | _, _ => none
    instanceId := (i : ℤ) }

/-- The listener snapshot of the trace branch (part_003 lines 311–323). -/
def traceDragData (t : TraceMesh) : SelectionData :=
  { id := jsOrStr t.id ("trace"), stype := "trace", position := t.position
    width := some t.width, area := some 0, instanceId := -1 }

/-- The pointer write performed by `TransformControls` before `objectChange`
fires: the attached object's position is set to the drag position. -/
def applyPointer (s : IMState) (tgt : Attached) (p : Vec3) : IMState :=
  match tgt with
  | .padDummy => { s with padBinding := s.padBinding.map fun b => { b with dummyPos := p } }
  | .traceObj =>
      { s with selectedObject := s.selectedObject.map fun o =>
          match o with
          | .traceM t => .traceM { t with position := p }
          | x => x }
  | .compObj =>
      { s with selectedObject := s.selectedObject.map fun o =>
          match o with
          | .compM c => .compM { c with position := p }
          | x => x }

/-- One drag update: the pointer write followed by the `_onTransformDrag`
handler (part_003 lines 266–325).  If the controls hold no object the handler
returns immediately.  If the (sticky) pad binding is present — `dummy`,
`instanceMesh` and `instanceId >= 0` — the pad branch runs: the dummy's y is
locked to `0.8`, the instance matrix and metadata position are rewritten, the
batch bounds refreshed, and the listener notified with pad data (when the
metadata entry exists).  Only otherwise does the trace branch run: a selected
trace's y is locked to `0.81` and the listener notified with trace data. -/
def dragUpdate (s : IMState) (p : Vec3) : IMState × List (Option SelectionData) :=
  match s.attached with
  | none => (s, [])
  | some tgt =>
    let s0 := applyPointer s tgt p
    match s0.padBinding with
    | some b =>
        let d : Vec3 := ⟨b.dummyPos.x, c08, b.dummyPos.z⟩
        let s1 := { s0 with
          padBinding := some { b with dummyPos := d }
          pads := s0.pads.map fun batch => writeInstancePos batch b.instanceId d }
        match s0.pads.bind fun batch => batch.idMap.get? b.instanceId with
        | some pd => (s1, [some (padDragData pd d b.instanceId)])
        | none => (s1, [])
    | none =>
        match s0.selectedObject with
        | some (.traceM t) =>
            let t1 := { t with position := ⟨t.position.x, c081, t.position.z⟩ }
            ({ s0 with selectedObject := some (.traceM t1) }, [some (traceDragData t1)])
        | _ => (s0, [])

/-- The y-coordinate of the selected trace drawable, when one is selected. -/
def tracePosOf (s : IMState) : Option Vec3 :=
  s.selectedObject.bind fun o =>
    match o with
    | .traceM t => some t.position
    | _ => none

/-! ## Engine teardown (`Engine.dispose`, part_004 lines 341–392) -/

/-- The teardown steps `dispose` performs, in order. -/
inductive TeardownStep where
  | stopLoop
  | disposeIM
  | disconnectRO
  | removeResizeListener
  | disposeSceneResources
  | disposeControls
  | disposeRenderer
  | removeCanvas
  | releaseContainer
deriving DecidableEq, Repr

/-- The lifecycle fields of `Engine` that `dispose` reads and writes. -/
structure EngineRT where
  isDisposed : Bool := false
  frameId : Option ℕ := none
  hasIM : Bool := false
  hasRO : Bool := false
  hasControls : Bool := true
  hasRenderer : Bool := true
  hasContainer : Bool := true
deriving DecidableEq, Repr

/-- Model of `Engine.dispose()` (part_004 lines 341–392): an already-disposed engine
returns immediately (`if (this._isDisposed) return`); otherwise the flag is
set and teardown runs in the fixed order — stop the loop, dispose the
interaction manager, tear down resize handling, dispose scene resources,
dispose controls, dispose the renderer and remove its canvas, release the
container. -/
def EngineRT.dispose (e : EngineRT) : EngineRT × List TeardownStep :=
  if e.isDisposed then (e, [])
  else
    ({ isDisposed := true, frameId := none, hasIM := false, hasRO := false
       hasControls := e.hasControls, hasRenderer := e.hasRenderer, hasContainer := false },
     [TeardownStep.stopLoop]
       ++ (if e.hasIM then [TeardownStep.disposeIM] else [])
       ++ (if e.hasRO then [TeardownStep.disconnectRO] else [])
       ++ [TeardownStep.removeResizeListener, TeardownStep.disposeSceneResources]
       ++ (if e.hasControls then [TeardownStep.disposeControls] else [])
       ++ (if e.hasRenderer then [TeardownStep.disposeRenderer, TeardownStep.removeCanvas] else [])
       ++ [TeardownStep.releaseContainer])

/-! ## Shared helper lemmas -/

/-- A sum of three squares over `ℚ` vanishes iff the two vectors coincide:
the zero-length test of `createTrace` is exactly equality of endpoints. -/
theorem distSq_eq_zero_iff (a b : Vec3) : distSq a b = 0 ↔ a = b := by
  rw [distSq]
  constructor
  · intro h
    have h1 : (a.x - b.x) ^ 2 = 0 := by
      nlinarith [sq_nonneg (a.x - b.x), sq_nonneg (a.y - b.y), sq_nonneg (a.z - b.z)]
    have h2 : (a.y - b.y) ^ 2 = 0 := by
      nlinarith [sq_nonneg (a.x - b.x), sq_nonneg (a.y - b.y), sq_nonneg (a.z - b.z)]
    have h3 : (a.z - b.z) ^ 2 = 0 := by
      nlinarith [sq_nonneg (a.x - b.x), sq_nonneg (a.y - b.y), sq_nonneg (a.z - b.z)]
    have e1 := sub_eq_zero.mp (pow_eq_zero_iff (n := 2) (by norm_num) |>.mp h1)
    have e2 := sub_eq_zero.mp (pow_eq_zero_iff (n := 2) (by norm_num) |>.mp h2)
    have e3 := sub_eq_zero.mp (pow_eq_zero_iff (n := 2) (by norm_num) |>.mp h3)
    cases a
    cases b
    simp_all
  · intro h
    subst h
    simp

/-- Lists built by `filterMap` and `filter` agree in length when `f` succeeds exactly where
`p` holds. -/
theorem length_filterMap_eq_filter {α β : Type} (f : α → Option β) (p : α → Bool)
    (l : List α) (hfp : ∀ x, (f x).isSome = p x) :
    (l.filterMap f).length = (l.filter p).length := by
  induction l with
  | nil => simp
  | cons a l ih =>
      by_cases h : p a
      · have hs : (f a).isSome := by rw [hfp a, h]
        obtain ⟨b, hb⟩ := Option.isSome_iff_exists.mp hs
        simp [List.filterMap_cons, List.filter_cons, h, hb, ih]
      · have hs : f a = none := by
          rcases hf : f a with _ | b
          · rfl
          · exfalso
            have : (f a).isSome = true := by rw [hf]; rfl
            rw [hfp a] at this
            exact h this
        simp [List.filterMap_cons, List.filter_cons, h, hs, ih]

/-! ## Claim theorems -/

/-- C9: `Engine.dispose` is idempotent — after any first call the disposed flag
is set, and a second call returns the state unchanged and performs no further
teardown steps, guarded by the explicit `_isDisposed` flag. -/
theorem engine_dispose_idempotent (e : EngineRT) :
    (e.dispose.1.isDisposed = true) ∧ e.dispose.1.dispose = (e.dispose.1, []) := by
  by_cases h : e.isDisposed <;> simp [EngineRT.dispose, h]

/-- C4 (amended): the empty-space-pick deselect transition resets the selection
sentinel to `-1`, drops the selected object, detaches the transform handle and
notifies the listener exactly once with `null`; the hover sentinel is left
unchanged by this transition (it is reset by the pointer-move handler, not by
the click handler). -/
theorem click_empty_deselect (s : IMState) :
    (onClickNoHit s).1.selectedInstanceId = -1
    ∧ (onClickNoHit s).1.selectedObject = none
    ∧ (onClickNoHit s).1.attached = none
    ∧ (onClickNoHit s).2 = [none]
    ∧ (onClickNoHit s).1.hoveredInstanceId = s.hoveredInstanceId := by
  simp [onClickNoHit, updateSelectionNone]

/-- A state hovering pad instance `5` when an empty-space click arrives. -/
def hoverFiveState : IMState := { hoveredInstanceId := 5 }

/-- C4 (counterexample): after an empty-space-pick deselect from a state whose
hover sentinel is `5`, the hover sentinel is still `5`, not the empty value
`-1` the claim demands. -/
theorem click_empty_hover_not_reset :
    (onClickNoHit hoverFiveState).1.hoveredInstanceId = 5 ∧ ((5 : ℤ) ≠ -1) := by
  decide

/-- C5: hydrating `{ board: { dimensions: { width: 120 } } }` takes the nested
branch, which builds a config whose `height`/`thickness` keys are present with
value `undefined`; the object spread in `createBoard` then lets them override
the defaults, so the resulting board dimensions are `120 × undefined ×
undefined` — not the `120 × 80 × 1.6` the claim states.  The flat form
`{ board: { width: 120 } }` does receive the defaults, showing the fallback was
intended. -/
theorem hydrate_board_nested_width_loses_defaults :
    hydrateBoardDims { dims := some { width := some 120 } } =
      { width := some 120, height := none, thickness := none }
    ∧ ({ width := some 120, height := none, thickness := none } : BoardDims)
        ≠ { width := some 120, height := some 80, thickness := some c16 }
    ∧ hydrateBoardDims { width := some 120 } =
      { width := some 120, height := some 80, thickness := some c16 } := by
  decide

/-- The document `{ holes: [{ position: [5,0,5], drill: 0.3 }] }`. -/
def holesOnlyDoc : JDoc :=
  { holes := some [{ position := some (.arr3 5 0 5), drill := some c03 }] }

/-- C7: hydrating `{ holes: [{ position:[5,0,5], drill:0.3 }] }` produces one
entity — but its type is `"component"`, not `"via"`: the `hole → via` alias
fires only on entries whose `type` field is literally `"hole"`, and `holes`
array entries are pushed untagged (unlike `vias` entries, which get
`type: v.type || "via"`).  The entity is built as a default-size box, not as a
cylinder of radius 0.3, although the drill radius 0.3 is resolved and passed
along.  An entry explicitly tagged `"hole"` would have been aliased. -/
theorem hydrate_holes_entry_not_via :
    ((loadBoard {} holesOnlyDoc).comps.map ComponentEntity.ctype = ["component"])
    ∧ ("component" ≠ "via")
    ∧ ((compConfigOf { position := some (.arr3 5 0 5), drill := some c03 }).radius = some c03)
    ∧ ((loadBoard {} holesOnlyDoc).comps.map ComponentEntity.geom
        = [CompGeom.box (some 4) 2 (some 2)])
    ∧ ((compConfigOf { type := some ("hole") }).type = "via") := by
  decide

/-- C1 (counterexample): for the empty entry list (`n = 0`) `createPads` (and
hence `addPads`) produces no pad batch at all — a bare group with no instanced
mesh whose count could be `0` and no metadata map — where the claim demands a
batch of size `0`. -/
theorem createPads_empty_no_batch :
    createPads [] = none ∧ (addPads {} []).pads = none := by
  decide

/-- C1 (amended): for every non-empty entry list, `addPads` installs a batch
whose instance count and metadata-map size equal `entries.length`, and every
entry `i` is written at instance index `i`: its transform (position and size
scale) sits at buffer slot `i` and its id (defaulted to `pad_i` when absent),
size and position are stored in the metadata map under key `i`.  For `n = 0`
the source returns an empty group with no batch (see the counterexample). -/
theorem addPads_batch_indexed (s : EngineState) (entries : List PadEntry)
    (hne : entries ≠ []) :
    ((addPads s entries).pads.map PadBatch.count = some entries.length)
    ∧ (((addPads s entries).pads.map fun b => b.idMap.length) = some entries.length)
    ∧ ∀ i e, entries[i]? = some e →
        (((addPads s entries).pads.bind fun b => b.idMap[i]?)
            = some (PadMeta.mk (e.id.getD ("pad_" ++ toString i))
                (e.size.get? 0) (e.size.get? 1) e.position i))
        ∧ (((addPads s entries).pads.bind fun b => b.transforms[i]?)
            = some (InstanceTransform.mk e.position (e.size.get? 0) (e.size.get? 1))) := by
  refine ⟨?_, ?_, ?_⟩
  · simp [addPads, createPads, hne]
  · simp [addPads, createPads, hne]
  · intro i e hie
    constructor
    · simp [addPads, createPads, hne, List.getElem?_map, List.getElem?_enum, hie]
    · simp [addPads, createPads, hne, List.getElem?_map, hie]

/-- The single pad entry used to instantiate C1's theorem. -/
def padEntryW : PadEntry := { id := some ("a"), position := ⟨1, 2, 3⟩, size := [2, 3] }

/-- C1 (witness): the theorem instantiated at the one-entry list. -/
theorem addPads_batch_indexed_witness :
    ([padEntryW] ≠ ([] : List PadEntry))
    ∧ ((addPads {} [padEntryW]).pads.map PadBatch.count = some 1)
    ∧ (((addPads {} [padEntryW]).pads.bind fun b => b.idMap[0]?)
        = some { id := "a", sizeW := some 2, sizeH := some 3
                 position := ⟨1, 2, 3⟩, instanceId := 0 }) := by
  refine ⟨by decide, ?_, ?_⟩
  · exact (addPads_batch_indexed {} [padEntryW] (by decide)).1
  · have h := ((addPads_batch_indexed {} [padEntryW] (by decide)).2.2 0 padEntryW (by rfl)).1
    simpa [padEntryW] using h

/-- C10: `createTrace` returns `null` for a zero-length segment (equal start and
end), and `addTraces` skips such entries, so the number of trace drawables
equals the number of entries with distinct endpoints — strictly fewer than
`entries.length` when a degenerate entry is present, as the concrete one-entry
instance shows. -/
theorem addTraces_drops_zero_length (s : EngineState) (entries : List SegEntry) :
    (∀ (a : Vec3) (w : ℚ), createTrace a a w = none)
    ∧ ((addTraces s entries).traces.length
        = (entries.filter fun t => t.start ≠ t.endv).length)
    ∧ ((addTraces {} [{ start := ⟨1, 2, 3⟩, endv := ⟨1, 2, 3⟩, width := 1 }]).traces.length = 0)
    ∧ (0 < ([{ start := ⟨1, 2, 3⟩, endv := ⟨1, 2, 3⟩, width := 1 }] : List SegEntry).length) := by
  have hnull : ∀ (a : Vec3) (w : ℚ), createTrace a a w = none := by
    intro a w
    simp [createTrace, distSq]
  refine ⟨hnull, ?_, ?_, by simp⟩
  · rw [addTraces]
    apply length_filterMap_eq_filter
    intro t
    rcases h : createTrace t.start t.endv t.width with _ | m
    · rw [createTrace] at h
      by_cases hd : distSq t.start t.endv = 0
      · have : t.start = t.endv := (distSq_eq_zero_iff _ _).mp hd
        simp [h, this]
      · simp [hd] at h
    · rw [createTrace] at h
      by_cases hd : distSq t.start t.endv = 0
      · simp [hd] at h
      · have : t.start ≠ t.endv := fun he => hd ((distSq_eq_zero_iff _ _).mpr he)
        simp [h, this]
  · simp [addTraces, hnull ⟨1, 2, 3⟩ 1]

/-- The trace document entry `{ points: [[0,0],[10,0],[10,10]] }`. -/
def polylineEntry : JEntry :=
  { points := some [.arr2 0 0, .arr2 10 0, .arr2 10 10] }

/-- The point list of `polylineEntry`. -/
def polylinePts : List JPos := [.arr2 0 0, .arr2 10 0, .arr2 10 10]

/-- C6 (amended): hydrating `{ points: [[0,0],[10,0],[10,10]] }` yields exactly
the two segments `(0,0)→(10,0)` and `(10,0)→(10,10)` at the trace surface
height; in general a `points` polyline of `k ≥ 2` points explodes into exactly
`k-1` segments, segment `i` running from point `i` to point `i+1`, each with
width `t.width || t.thickness || 0.5` — the width field is used when present
and nonzero, else a nonzero thickness, else the default `0.5` (a present but
zero width is skipped, see the counterexample). -/
theorem hydrate_polyline_segments :
    (processTraces [polylineEntry]
      = [ { start := ⟨0, c081, 0⟩, endv := ⟨10, c081, 0⟩, width := c05 },
          { start := ⟨10, c081, 0⟩, endv := ⟨10, c081, 10⟩, width := c05 } ])
    ∧ ∀ (t : JEntry) (ps : List JPos), t.points = some ps → 2 ≤ ps.length →
        ((traceSegments t).length = ps.length - 1)
        ∧ (∀ i, i < ps.length - 1 →
            (traceSegments t)[i]?
              = some (Segment.mk (toVec3 ps[i]? c081) (toVec3 ps[i+1]? c081)
                  (jsOrNum t.width t.thickness c05)))
        ∧ (∀ w, t.width = some w → w ≠ 0 → jsOrNum t.width t.thickness c05 = w)
        ∧ (truthyQ t.width = none → ∀ w, t.thickness = some w → w ≠ 0 →
            jsOrNum t.width t.thickness c05 = w)
        ∧ (truthyQ t.width = none → truthyQ t.thickness = none →
            jsOrNum t.width t.thickness c05 = c05) := by
  constructor
  · decide
  · intro t ps hp hlen
    refine ⟨?_, ?_, ?_, ?_, ?_⟩
    · simp [traceSegments, hp, hlen, segsFromPolyline]
    · intro i hi
      simp [traceSegments, hp, hlen, segsFromPolyline, List.getElem?_map,
        List.getElem?_range, hi]
    · intro w hw hw0
      simp [jsOrNum, truthyQ, hw, hw0]
    · intro hwf w ht hw0
      rw [jsOrNum, hwf]
      simp [truthyQ, ht, hw0, Option.orElse]
    · intro hwf htf
      rw [jsOrNum, hwf]
      simp [htf, Option.orElse]

/-- C6 (counterexample): a polyline entry whose `width` field is present with
value `0` yields segments of the default width `0.5`, not of the entry's width
value. -/
theorem hydrate_polyline_width_zero_replaced :
    processTraces [{ points := some [.arr2 0 0, .arr2 10 0], width := some 0 }]
      = [ { start := ⟨0, c081, 0⟩, endv := ⟨10, c081, 0⟩, width := c05 } ]
    ∧ c05 ≠ 0 := by
  decide

/-- C6 (witness): the general part of the theorem instantiated at the concrete
three-point entry. -/
theorem hydrate_polyline_segments_witness :
    (polylineEntry.points = some polylinePts)
    ∧ (2 ≤ polylinePts.length)
    ∧ ((traceSegments polylineEntry).length = polylinePts.length - 1) := by
  refine ⟨rfl, by decide, ?_⟩
  exact (hydrate_polyline_segments.2 polylineEntry polylinePts rfl (by decide)).1

/-- A hit list whose nearest hit is a trace and whose second hit is a
`"component"`-typed standalone drawable. -/
def mixedHits : List Hit := [{ otype := "trace" }, { otype := "component" }]

/-- C8 (counterexample): the code's middle priority tier also contains the
`"component"` type, which the claim's tier (`ic`/`connector`/`capacitor`/`via`)
omits: on `[trace, component]` the code selects the `component` hit while the
claimed priority would select the first remaining hit, the trace. -/
theorem click_priority_spec_mismatch :
    bestHit mixedHits = some { otype := "component" }
    ∧ specBestHit mixedHits = some { otype := "trace" }
    ∧ bestHit mixedHits ≠ specBestHit mixedHits := by
  decide

/-- C8 (amended): for clicks with at least one intersection, the selected hit
follows the fixed priority: the first pad-batch (`pads_copper`) hit, else the
first standalone component hit of type `ic`, `component`, `connector`,
`capacitor` or `via`, else the first (nearest) remaining hit; an empty hit
list resolves to no hit and the click performs the deselect transition,
notifying the listener once with `null`. -/
theorem click_priority_resolution (hits : List Hit) :
    (∀ h, (hits.find? fun x => x.otype = "pads_copper") = some h → bestHit hits = some h)
    ∧ ((hits.find? fun x => x.otype = "pads_copper") = none →
        ∀ h, (hits.find? fun x => isStandaloneType x.otype) = some h → bestHit hits = some h)
    ∧ ((hits.find? fun x => x.otype = "pads_copper") = none →
        (hits.find? fun x => isStandaloneType x.otype) = none →
        bestHit hits = hits.head?)
    ∧ (bestHit [] = none)
    ∧ (∀ s : IMState,
        (onClickNoHit s).2 = [none] ∧ (onClickNoHit s).1.selectedInstanceId = -1) := by
  refine ⟨?_, ?_, ?_, by decide, ?_⟩
  · intro h hf
    simp [bestHit, hf, Option.orElse]
  · intro hpn h hf
    simp [bestHit, hpn, hf, Option.orElse]
  · intro hpn hsn
    simp [bestHit, hpn, hsn, Option.orElse]
  · intro s
    simp [onClickNoHit, updateSelectionNone]

/-- The hit list used to instantiate C8's theorem: a trace in front of the pad
batch. -/
def padBehindTraceHits : List Hit := [{ otype := "trace" }, { otype := "pads_copper", iid := some 3 }]

/-- C8 (witness): the pad-tier clause instantiated at a concrete hit list —
the pad-batch hit wins although a trace hit is nearer. -/
theorem click_priority_resolution_witness :
    ((padBehindTraceHits.find? fun x => x.otype = "pads_copper")
        = some { otype := "pads_copper", iid := some 3 })
    ∧ bestHit padBehindTraceHits = some { otype := "pads_copper", iid := some 3 } :=
  ⟨by decide,
   (click_priority_resolution padBehindTraceHits).1 { otype := "pads_copper", iid := some 3 }
     (by decide)⟩

/-- A trace drawable resting at the trace surface height. -/
def traceAcross : TraceMesh :=
  { start := ⟨0, c081, 0⟩, endv := ⟨10, c081, 0⟩, width := 1, position := ⟨5, c081, 0⟩ }

/-- A one-pad batch as created for a single pad at `(1, 0.8, 1)` of size 2×3. -/
def onePadBatch : PadBatch :=
  { count := 1
    transforms := [{ pos := ⟨1, c08, 1⟩, scaleW := some 2, scaleH := some 3 }]
    idMap := [{ id := "a", sizeW := some 2, sizeH := some 3, position := ⟨1, c08, 1⟩, instanceId := 0 }] }

/-- The reachable interaction state in which a pad was selected first (leaving
`transformControls.userData` holding its dummy/mesh/index binding, which no
code path ever clears) and a trace was selected afterwards (attaching the
controls to the trace drawable without touching that binding). -/
def staleBindingState : IMState :=
  { attached := some .traceObj
    padBinding := some { dummyPos := ⟨1, c08, 1⟩, instanceId := 0 }
    selectedObject := some (.traceM traceAcross)
    pads := some onePadBatch }

/-- The same trace selection in a session in which no pad was ever selected:
`transformControls.userData` holds no pad binding. -/
def freshTraceState : IMState :=
  { attached := some .traceObj
    selectedObject := some (.traceM traceAcross)
    pads := some onePadBatch }

/-- C2: a drag update through the attached trace handle does *not* clamp the
trace's y-coordinate when a stale pad binding is present: the guard
`dummy && instanceMesh && instanceId >= 0` of `_onTransformDrag` takes the pad
branch on the leftover `userData` from the earlier pad selection, so the trace
keeps the pointer-produced y (here `2`, not the surface constant `0.81`) and
the listener is notified with *pad* data while a trace is being dragged.  The
identical drag in a fresh session (fourth conjunct) does clamp to `0.81`,
which is what the claim — and the code's own `// Lock to board surface`
comment — requires on every write. -/
theorem drag_trace_stale_binding_skips_clamp :
    tracePosOf (dragUpdate staleBindingState ⟨6, 2, 7⟩).1 = some ⟨6, 2, 7⟩
    ∧ ((2 : ℚ) ≠ c081)
    ∧ (((dragUpdate staleBindingState ⟨6, 2, 7⟩).2.map fun o => o.map SelectionData.stype)
        = [some ("pad")])
    ∧ tracePosOf (dragUpdate freshTraceState ⟨6, 2, 7⟩).1 = some ⟨6, c081, 7⟩
    ∧ (((dragUpdate freshTraceState ⟨6, 2, 7⟩).2.map fun o => o.map SelectionData.stype)
        = [some ("trace")]) := by
  decide

/-! ### Round-trip machinery (C3) -/

/-- An element obtained through `getElem?` is a member of the list. -/
theorem mem_of_getElem_opt {α : Type} (l : List α) (a : α) (i : ℕ)
    (h : l[i]? = some a) : a ∈ l := by
  obtain ⟨hlt, rfl⟩ := List.getElem?_eq_some.mp h
  exact List.getElem_mem hlt

/-- Every pad component emitted by `serializeBoard` survives the `"pad"` filter. -/
theorem filter_pad_serPad (l : List PadMeta) :
    ((l.map serPad).filter fun c => c.type = some ("pad")) = l.map serPad := by
  induction l with
  | nil => rfl
  | cons a l ih => simp [serPad, ih]

/-- No trace component emitted by `serializeBoard` survives the `"pad"` filter. -/
theorem filter_pad_serTrace (l : List TraceMesh) :
    ((l.map serTrace).filter fun c => c.type = some ("pad")) = [] := by
  induction l with
  | nil => rfl
  | cons a l ih => simp [serTrace, ih]

/-- No pad component emitted by `serializeBoard` survives the `"trace"` filter. -/
theorem filter_trace_serPad (l : List PadMeta) :
    ((l.map serPad).filter fun c => c.type = some ("trace")) = [] := by
  induction l with
  | nil => rfl
  | cons a l ih => simp [serPad, ih]

/-- Every trace component emitted by `serializeBoard` survives the `"trace"`
filter. -/
theorem filter_trace_serTrace (l : List TraceMesh) :
    ((l.map serTrace).filter fun c => c.type = some ("trace")) = l.map serTrace := by
  induction l with
  | nil => rfl
  | cons a l ih => simp [serTrace, ih]

/-- The pad source of a serialized document is exactly the serialized pad
metadata (in order). -/
theorem padsSource_serialize (s : EngineState) :
    padsSourceOf (serializeBoard s) = (padMetas s).map serPad := by
  simp [padsSourceOf, serializeBoard, List.filter_append, filter_pad_serPad,
    filter_pad_serTrace]

/-- The trace source of a serialized document is exactly the serialized trace
drawables (in order). -/
theorem tracesSource_serialize (s : EngineState) :
    tracesSourceOf (serializeBoard s) = s.traces.map serTrace := by
  simp [tracesSourceOf, serializeBoard, List.filter_append, filter_trace_serPad,
    filter_trace_serTrace]

/-- Folding `addComponent` only appends to `components`; the pad batch is untouched. -/
theorem foldl_addComponent_pads (l : List JEntry) (st : EngineState) :
    (l.foldl (fun a c => addComponent a (compConfigOf c)) st).pads = st.pads := by
  induction l generalizing st with
  | nil => rfl
  | cons a l ih => simpa [addComponent] using ih (addComponent st (compConfigOf a))

/-- Folding `addComponent` only appends to `components`; the trace list is untouched. -/
theorem foldl_addComponent_traces (l : List JEntry) (st : EngineState) :
    (l.foldl (fun a c => addComponent a (compConfigOf c)) st).traces = st.traces := by
  induction l generalizing st with
  | nil => rfl
  | cons a l ih => simpa [addComponent] using ih (addComponent st (compConfigOf a))

/-- The pad batch installed by `loadBoard`: `createPads` over the hydrated pad
array when the source list is non-empty, otherwise the cleared `none`. -/
theorem loadBoard_pads (s : EngineState) (d : JDoc) :
    (loadBoard s d).pads =
      (if padsSourceOf d = [] then none
       else createPads (hydratePadArray (padsSourceOf d))) := by
  rcases d.board with _ | b <;>
    by_cases h : padsSourceOf d = [] <;>
      by_cases h2 : processTraces (tracesSourceOf d) = [] <;>
        simp [loadBoard, h, h2, addPads, addTraces, setBoard, foldl_addComponent_pads, *]

/-- The trace drawables installed by `loadBoard`: one `createTrace` per
processed segment (degenerate ones skipped) when there are segments, otherwise
the cleared empty list. -/
theorem loadBoard_traces (s : EngineState) (d : JDoc) :
    (loadBoard s d).traces =
      (if processTraces (tracesSourceOf d) = [] then []
       else ((processTraces (tracesSourceOf d)).map fun g =>
               SegEntry.mk g.start g.endv g.width).filterMap fun t =>
                 createTrace t.start t.endv t.width) := by
  rcases d.board with _ | b <;>
    by_cases h : padsSourceOf d = [] <;>
      by_cases h2 : processTraces (tracesSourceOf d) = [] <;>
        simp [loadBoard, h, h2, addPads, addTraces, setBoard, foldl_addComponent_traces, *]

/-- A serialized trace hydrates back to its own single segment as long as its
stored width is nonzero (a zero width falls through `width || thickness || 0.5`
to the default). -/
theorem traceSegments_serTrace (t : TraceMesh) (h : t.width ≠ 0) :
    traceSegments (serTrace t) = [Segment.mk t.start t.endv t.width] := by
  simp [traceSegments, serTrace, startEndSegs, toVec3, jsOrNum, truthyQ, h]

/-- Processing the serialized trace list reproduces the original segments when
all widths are nonzero. -/
theorem processTraces_map_serTrace (l : List TraceMesh) (h : ∀ t ∈ l, t.width ≠ 0) :
    processTraces (l.map serTrace) = l.map fun t => Segment.mk t.start t.endv t.width := by
  induction l with
  | nil => rfl
  | cons a l ih =>
      have ha := h a (by simp)
      simp [processTraces, traceSegments_serTrace a ha]
      simpa [processTraces] using ih fun t htl => h t (by simp [htl])

/-- Rebuilding traces from exact `(start, end, width)` data reproduces the
original observation triples when no segment is degenerate. -/
theorem filterMap_createTrace_triples (l : List TraceMesh)
    (h : ∀ t ∈ l, t.start ≠ t.endv) :
    (((l.map fun t => SegEntry.mk t.start t.endv t.width).filterMap fun g =>
        createTrace g.start g.endv g.width).map fun m => (m.start, m.endv, m.width))
      = l.map fun t => (t.start, t.endv, t.width) := by
  induction l with
  | nil => rfl
  | cons a l ih =>
      have ha := h a (by simp)
      have hd : distSq a.start a.endv ≠ 0 := fun hz => ha ((distSq_eq_zero_iff _ _).mp hz)
      have ih2 := ih fun t htl => h t (by simp [htl])
      have hm : createTrace a.start a.endv a.width =
          some { start := a.start, endv := a.endv, width := a.width
                 position := ⟨(a.start.x + a.endv.x) / 2, (a.start.y + a.endv.y) / 2,
                              (a.start.z + a.endv.z) / 2⟩
                 id := none } := by
        rw [createTrace, if_neg hd]
      simp only [List.map_cons, List.filterMap_cons, hm]
      rw [List.filterMap_map] at ih2
      simp [ih2]

/-- The pad half of the round trip: positions and sizes of well-formed pad
metadata survive serialize-then-hydrate exactly. -/
theorem padsPosSizes_roundtrip (s : EngineState)
    (hp : ∀ m ∈ padMetas s, m.sizeW.isSome ∧ m.sizeH.isSome) :
    padsPosSizes (roundtrip s) = padsPosSizes s := by
  have hps : padsSourceOf (serializeBoard s) = (padMetas s).map serPad :=
    padsSource_serialize s
  by_cases hP : padMetas s = []
  · have hsrc : padsSourceOf (serializeBoard s) = [] := by rw [hps, hP]; rfl
    have h1 : (roundtrip s).pads = none := by
      rw [roundtrip, loadBoard_pads, if_pos hsrc]
    have h2 : padMetas (roundtrip s) = [] := by rw [padMetas, h1]
    simp [padsPosSizes, h2, hP]
  · have hsrc : padsSourceOf (serializeBoard s) ≠ [] := by
      rw [hps]
      simpa using hP
    have hlen : hydratePadArray ((padMetas s).map serPad) ≠ [] := by
      intro hnil
      apply hP
      have h0 := congrArg List.length hnil
      simp [hydratePadArray] at h0
      exact h0
    have h1 : (roundtrip s).pads =
        createPads (hydratePadArray ((padMetas s).map serPad)) := by
      rw [roundtrip, loadBoard_pads, if_neg hsrc, hps]
    rw [createPads, if_neg hlen] at h1
    have h2 : padMetas (roundtrip s) =
        (hydratePadArray ((padMetas s).map serPad)).enum.map fun ie =>
          PadMeta.mk (ie.2.id.getD ("pad_" ++ toString ie.1)) (ie.2.size.get? 0)
            (ie.2.size.get? 1) ie.2.position ie.1 := by
      rw [padMetas, h1]
    rw [padsPosSizes, padsPosSizes, h2]
    apply List.ext_getElem?
    intro i
    rcases hm : (padMetas s)[i]? with _ | m
    · simp [hydratePadArray, List.getElem?_map, List.getElem?_enum, hm]
    · have hmem : m ∈ padMetas s := mem_of_getElem_opt _ _ _ hm
      obtain ⟨hwW, hwH⟩ := hp m hmem
      obtain ⟨w, hw⟩ := Option.isSome_iff_exists.mp hwW
      obtain ⟨hgt, hh⟩ := Option.isSome_iff_exists.mp hwH
      simp [hydratePadArray, List.getElem?_map, List.getElem?_enum, hm, serPad,
        serPadSize, padSizeOf, toVec3, hw, hh]

/-- The trace half of the round trip: `(start, end, width)` triples survive
serialize-then-hydrate exactly, as long as every width is nonzero and no trace
is degenerate. -/
theorem tracesTriples_roundtrip (s : EngineState)
    (ht : ∀ t ∈ s.traces, t.width ≠ 0 ∧ t.start ≠ t.endv) :
    tracesTriples (roundtrip s) = tracesTriples s := by
  have hseg : processTraces (tracesSourceOf (serializeBoard s)) =
      s.traces.map fun t => Segment.mk t.start t.endv t.width := by
    rw [tracesSource_serialize]
    exact processTraces_map_serTrace s.traces fun t htm => (ht t htm).1
  by_cases hT : s.traces = []
  · have hsrc : processTraces (tracesSourceOf (serializeBoard s)) = [] := by
      rw [hseg, hT]; rfl
    have h1 : (roundtrip s).traces = [] := by
      rw [roundtrip, loadBoard_traces, if_pos hsrc]
    simp [tracesTriples, h1, hT]
  · have hsrc : processTraces (tracesSourceOf (serializeBoard s)) ≠ [] := by
      rw [hseg]
      simpa using hT
    have h1 := loadBoard_traces s (serializeBoard s)
    rw [if_neg hsrc, hseg, List.map_map] at h1
    rw [tracesTriples, tracesTriples, roundtrip, h1]
    have hcomp : ((fun g : Segment => SegEntry.mk g.start g.endv g.width) ∘
        fun t : TraceMesh => Segment.mk t.start t.endv t.width)
          = fun t : TraceMesh => SegEntry.mk t.start t.endv t.width := rfl
    rw [hcomp]
    exact filterMap_createTrace_triples s.traces fun t htm => (ht t htm).2

/-- C3 (amended): for every engine state whose pad metadata is well-formed
(both size components present) and whose traces all have nonzero width and
distinct endpoints, hydrating the output of `serializeBoard` reproduces the
pad `(position, size)` list and the trace `(start, end, width)` list exactly
(hence the same sets, with no tolerance needed).  A zero-width trace breaks
the law (see the counterexample): its width is re-hydrated as the 0.5 default. -/
theorem serialize_load_roundtrip (s : EngineState)
    (hp : ∀ m ∈ padMetas s, m.sizeW.isSome ∧ m.sizeH.isSome)
    (ht : ∀ t ∈ s.traces, t.width ≠ 0 ∧ t.start ≠ t.endv) :
    padsPosSizes (roundtrip s) = padsPosSizes s
    ∧ tracesTriples (roundtrip s) = tracesTriples s :=
  ⟨padsPosSizes_roundtrip s hp, tracesTriples_roundtrip s ht⟩

/-- An engine state holding one zero-width trace, as produced by
`addTraces [{ start: [0,0.81,0], end: [10,0.81,0], width: 0 }]`. -/
def zeroWidthState : EngineState :=
  addTraces {} [{ start := ⟨0, c081, 0⟩, endv := ⟨10, c081, 0⟩, width := 0 }]

/-- C3 (counterexample): serializing and re-hydrating a state with one
zero-width trace yields a trace of width `0.5` instead of `0` — the
`(start, end, width)` sets differ by `0.5`, far outside floating-point
tolerance, so the round-trip law fails as universally stated. -/
theorem serialize_load_roundtrip_width_zero :
    tracesTriples zeroWidthState = [(⟨0, c081, 0⟩, ⟨10, c081, 0⟩, (0 : ℚ))]
    ∧ tracesTriples (roundtrip zeroWidthState)
        = [(⟨0, c081, 0⟩, ⟨10, c081, 0⟩, c05)]
    ∧ (c05 : ℚ) ≠ 0 := by
  refine ⟨?_, ?_, by decide⟩
  · simp [zeroWidthState, addTraces, createTrace, distSq, tracesTriples]
  · simp [zeroWidthState, roundtrip, serializeBoard, serBoard, serTrace, loadBoard,
      setBoard, boardConfigOf, padsSourceOf, tracesSourceOf, componentsSourceOf,
      processTraces, traceSegments, startEndSegs, jsOrNum, truthyQ, jsStrOrUndef,
      toVec3, addTraces, createTrace, distSq, tracesTriples, padMetas,
      addComponent, compConfigOf, jsOrStr, createBoardDims, spreadField]

/-- A small well-formed state: one pad and one unit-width trace. -/
def roundtripWitnessState : EngineState :=
  { pads := createPads [{ id := some ("p1"), position := ⟨1, c08, 2⟩, size := [2, 3] }]
    traces := [{ start := ⟨0, c081, 0⟩, endv := ⟨10, c081, 0⟩, width := 1,
                 position := ⟨5, c081, 0⟩ }] }

/-- C3 (witness): the round-trip theorem instantiated at a concrete one-pad,
one-trace state. -/
theorem serialize_load_roundtrip_witness :
    (∀ m ∈ padMetas roundtripWitnessState, m.sizeW.isSome ∧ m.sizeH.isSome)
    ∧ (∀ t ∈ roundtripWitnessState.traces, t.width ≠ 0 ∧ t.start ≠ t.endv)
    ∧ (padsPosSizes (roundtrip roundtripWitnessState) = padsPosSizes roundtripWitnessState
        ∧ tracesTriples (roundtrip roundtripWitnessState) = tracesTriples roundtripWitnessState) :=
  ⟨by decide, by decide, serialize_load_roundtrip roundtripWitnessState (by decide) (by decide)⟩
